import Mathlib

/-!
Verification of the OrderFlow backend ingest-to-order pipeline.

Shallow embedding of:
  - `backend/models.py`            (enums and row shapes)
  - `backend/services/anomaly_service.py::detect_anomalies`
  - `backend/services/order_orchestrator.py::process_incoming_interaction`
  - `backend/services/ai_service.py::extract_order_data` (the `json.loads` step)
  - `backend/services/order_processor.py::_call_claude`  (the fence-stripping step)
  - `backend/routers/orders.py::resolve_anomaly`
  - `backend/routers/interactions.py::process_text`      (exception-to-status mapping)

Conventions of the embedding:
  - `Numeric(12,2)` money columns are integer cents; `Numeric(5,2)` severity
    scores are integer hundredths (`Decimal("8.00")` is `800`).
  - uuid primary keys are `Nat` (for rows keyed by uuid4 defaults) or `String`
    (for tenant / customer / product identifiers); only equality of ids matters.
  - Python exceptions are the inductive `PyExc`; fallible calls return `Except`.
  - The external AI providers are oracles (`Providers`): the orchestrator treats
    them as black boxes, so a run is a pure function of their answers.
  - The SQLAlchemy session is modelled by explicit state passing: a run starts
    from a committed database `db0`, accumulates uncommitted rows, and either
    commits them all (final `session.commit()`) or rolls them back.  Per the
    documented semantics of `Session.rollback()`, instances that entered the
    session as pending within the rolled-back transaction are expunged with
    their attribute state intact; they are no longer tracked, so a later
    `session.commit()` does not re-insert them.
-/

namespace OrderFlow

/-- Enum `models.InteractionStatus`. -/
inductive InteractionStatus where
  | PENDING
  | PROCESSED
  | FAILED
  deriving DecidableEq, Repr

/-- Enum `models.OrderStatus`. -/
inductive OrderStatus where
  | DRAFT
  | FLAGGED
  | CONFIRMED
  | SYNCED
  deriving DecidableEq, Repr

/-- Python `OrderStatus.value` (the enum's string payload in `models.py`). -/
def OrderStatus.value : OrderStatus → String
  | .DRAFT => "DRAFT"
  | .FLAGGED => "FLAGGED"
  | .CONFIRMED => "CONFIRMED"
  | .SYNCED => "SYNCED"

/-- Enum `models.SourceType`. -/
inductive SourceType where
  | VOICE
  | EMAIL
  | PDF
  deriving DecidableEq, Repr

/-- Row of `models.Product` (tenant-scoped catalog entry); `price` is the
`Numeric(12,2)` catalog price in cents. -/
structure Product where
  id : String
  tenant_id : String
  sku : String
  price : Int
  deriving DecidableEq, Repr

/-- One element of the list returned by `AIService.extract_order_data`, as the
orchestrator reads it (`raw["sku"]`, `int(raw["qty"])`); `qty` is already the
converted integer. -/
structure RawItem where
  sku : String
  qty : Int
  deriving DecidableEq, Repr

/-- Transient `models.OrderItem` ORM object as built by the pipeline and as fed
to `detect_anomalies`.  `unit_price` is an `Option` because the ORM attribute
may be `None` on a hand-built object, which `detect_anomalies` checks for. -/
structure OrderItemObj where
  order_id : Nat
  product_id : String
  quantity : Int
  unit_price : Option Int
  deriving DecidableEq, Repr

/-- Transient `models.Anomaly` ORM object as created by `detect_anomalies`
(no primary key yet; `severity_score` in hundredths). -/
structure Anomaly where
  order_id : Nat
  rule_code : String
  description : String
  severity_score : Int
  is_resolved : Bool
  deriving DecidableEq, Repr

/-- Render an integer-cents amount the way Python prints the two-decimal-place
`Decimal` read back from a `Numeric(_, 2)` column: optional sign, integer part,
dot, exactly two fraction digits. -/
def centsRepr (c : Int) : String :=
  let sign := if c < 0 then "-" else ""
  let a := c.natAbs
  let frac := a % 100
  let fracStr := if frac < 10 then "0" ++ toString frac else toString frac
  sign ++ toString (a / 100) ++ "." ++ fracStr

/-- Python string interpolation `f"{item.unit_price}"` for a
`Decimal | None` value. -/
def priceRepr : Option Int → String
  | none => "None"
  | some c => centsRepr c

/-- Constant `MAX_REASONABLE_QUANTITY` of `anomaly_service.py`. -/
def MAX_REASONABLE_QUANTITY : Int := 10000

/-- The `Anomaly(...)` constructor call of rule 1 (unusual volume) in
`anomaly_service.detect_anomalies`. -/
def uv_anomaly (order_id : Nat) (item : OrderItemObj) : Anomaly :=
  { order_id := order_id
    rule_code := "UNUSUAL_VOLUME"
    description := "Quantity " ++ toString item.quantity ++ " for product "
      ++ item.product_id ++ " exceeds threshold of "
      ++ toString MAX_REASONABLE_QUANTITY
    severity_score := 800
    is_resolved := false }

/-- The `Anomaly(...)` constructor call of rule 2 (missing / zero price) in
`anomaly_service.detect_anomalies`. -/
def zp_anomaly (order_id : Nat) (item : OrderItemObj) : Anomaly :=
  { order_id := order_id
    rule_code := "ZERO_PRICE"
    description := "Unit price is " ++ priceRepr item.unit_price
      ++ " for product " ++ item.product_id
    severity_score := 650
    is_resolved := false }

/-- Guard of rule 2: `item.unit_price is None or item.unit_price <= 0`. -/
def price_missing_or_nonpos (item : OrderItemObj) : Prop :=
  item.unit_price.elim True (fun p => p ≤ 0)

instance (item : OrderItemObj) : Decidable (price_missing_or_nonpos item) := by
  unfold price_missing_or_nonpos
  cases item.unit_price <;> simp <;> infer_instance

/-- Function `anomaly_service.detect_anomalies`: the Python `for` loop that
appends rule-1 and then rule-2 anomalies per item, translated as a left fold
over the items with an accumulator list. -/
def detect_anomalies (order_id : Nat) (order_items : List OrderItemObj) :
    List Anomaly :=
  order_items.foldl
    (fun anomalies item =>
      let anomalies :=
        if item.quantity > MAX_REASONABLE_QUANTITY then
          anomalies ++ [uv_anomaly order_id item]
        else anomalies
      let anomalies :=
        if price_missing_or_nonpos item then
          anomalies ++ [zp_anomaly order_id item]
        else anomalies
      anomalies)
    []

/-- Per-item anomaly list used to characterize `detect_anomalies`: rule 1
before rule 2, each fired independently. -/
def item_anomalies (order_id : Nat) (item : OrderItemObj) : List Anomaly :=
  (if item.quantity > MAX_REASONABLE_QUANTITY then [uv_anomaly order_id item]
   else [])
  ++ (if price_missing_or_nonpos item then [zp_anomaly order_id item] else [])

/-- Row of `models.Interaction` (fields the pipeline reads or writes). -/
structure InteractionRow where
  id : Nat
  tenant_id : String
  customer_id : String
  source_type : SourceType
  status : InteractionStatus
  deriving DecidableEq, Repr

/-- Row of `models.Order` (fields the pipeline reads or writes);
`total_amount` is the `Numeric(14,2)` total in cents. -/
structure OrderRow where
  id : Nat
  tenant_id : String
  customer_id : String
  interaction_id : Option Nat
  status : OrderStatus
  total_amount : Int
  deriving DecidableEq, Repr

/-- Payload of the White Circle verification response, as the orchestrator
reads it (`safety_result.get("decision")`, `safety_result.get("reason", _)`).
Absent dict keys are `none`. -/
structure SafetyResult where
  decision : Option String
  reason : Option String
  deriving DecidableEq, Repr

/-- Row of `models.AIAnalysisLog` as the pipeline creates it; the
`raw_extraction_json` column holds the extracted items and the safety
verdict. -/
structure AnalysisLogRow where
  interaction_id : Nat
  transcript_text : String
  extracted_items : List RawItem
  safety_verdict : Option SafetyResult
  deriving DecidableEq, Repr

/-- A Python exception value: either the orchestrator's own
`ContentSafetyError` or any other exception, tagged with its type name. -/
inductive PyExc where
  | contentSafetyError (msg : String)
  | pyError (typeName msg : String)
  deriving DecidableEq, Repr

/-- The tables the pipeline writes, as a committed database state. -/
structure DB where
  interactions : List InteractionRow
  ai_analysis_logs : List AnalysisLogRow
  orders : List OrderRow
  order_items : List OrderItemObj
  anomalies : List Anomaly
  deriving DecidableEq, Repr

/-- The two `config.Settings` fields the pipeline branches on; an unset
`WHITE_CIRCLE_API_KEY` is the empty string (Python falsy). -/
structure Settings where
  SAFETY_MODE : String
  WHITE_CIRCLE_API_KEY : String
  deriving DecidableEq, Repr

/-- Oracles for the external calls of one pipeline run: the answers (or
exceptions) of `AIService.transcribe_audio`, `AIService.verify_content_safety`
and `AIService.extract_order_data`, plus whether the final `session.commit()`
itself raises (`none` = commit succeeds). -/
structure Providers where
  transcribe : Except PyExc String
  verify_content_safety : String → Except PyExc SafetyResult
  extract_order_data : String → Except PyExc (List RawItem)
  final_commit : Option PyExc

/-- The summary dict `process_incoming_interaction` returns on success. -/
structure Summary where
  interaction_id : Nat
  order_id : Nat
  status : String
  anomalies_detected : Nat
  deriving DecidableEq, Repr

/-- Observable outcome of one pipeline run: the returned value or re-raised
exception, the database state that is durably committed afterwards, and the
final in-memory state of the `Interaction` ORM object (which on the failure
path is mutated after being expunged from the session). -/
structure RunOutcome where
  result : Except PyExc Summary
  committed : DB
  interactionObj : InteractionRow

/-- Failure path of `process_incoming_interaction` (both `except` arms,
lines 240-260).  `session.rollback()` undoes the uncommitted INSERTs and, per
SQLAlchemy `Session.rollback()` semantics, expunges every instance that was
added as pending within the rolled-back transaction, keeping its attribute
state (so `interaction.id` is still set) but removing it from the session.
`interaction.status = FAILED` therefore mutates only the detached in-memory
object, and the best-effort `session.commit()` that follows has nothing to
flush: no row is persisted.  The original exception is re-raised. -/
def fail_path (e : PyExc) (db0 : DB) (interaction : InteractionRow) :
    RunOutcome :=
  { result := .error e
    committed := db0
    interactionObj := { interaction with status := .FAILED } }

/-- Safety gate of the pipeline (step 2b, lines 101-128): skip when
`SAFETY_MODE == "off"` or no `WHITE_CIRCLE_API_KEY`; otherwise call the
provider; in strict mode a `block` decision raises `ContentSafetyError`
carrying the provider's reason (default `"unsafe content detected"`); any
other mode records the verdict and continues. -/
def safety_gate (stg : Settings) (prov : Providers) (transcript : String) :
    Except PyExc (Option SafetyResult) :=
  if stg.SAFETY_MODE == "off" then .ok none
  else if stg.WHITE_CIRCLE_API_KEY == "" then .ok none
  else
    match prov.verify_content_safety transcript with
    | .error e => .error e
    | .ok safety_result =>
      let is_unsafe := safety_result.decision == some "block"
      if stg.SAFETY_MODE == "strict" && is_unsafe then
        .error (.contentSafetyError ("Content blocked by safety policy: "
          ++ safety_result.reason.getD "unsafe content detected"))
      else .ok (some safety_result)

/-- SKU resolution (step 5, lines 159-168): one bulk lookup of the extracted
SKUs scoped to the tenant, then the dict comprehension
`{p.sku: p for p in result}` — on duplicate SKUs the later row wins, hence
the search over the reversed result list. -/
def product_map (catalog : List Product) (tenant_id : String)
    (skus : List String) : String → Option Product :=
  fun sku =>
    ((catalog.filter
        (fun p => p.tenant_id == tenant_id && skus.contains p.sku)).reverse).find?
      (fun p => p.sku == sku)

/-- Body of the item-building `for` loop (lines 183-205): an unresolved SKU is
skipped (`continue`), a resolved one contributes `unit_price * qty` to the
running total and appends an `OrderItem` with the snapshotted price. -/
def build_step (lookup : String → Option Product) (oid : Nat)
    (acc : Int × List OrderItemObj) (raw : RawItem) : Int × List OrderItemObj :=
  match lookup raw.sku with
  | none => acc
  | some product =>
    let qty := raw.qty
    let unit_price := product.price
    let line_total := unit_price * qty
    (acc.1 + line_total,
     acc.2 ++ [{ order_id := oid, product_id := product.id, quantity := qty,
                 unit_price := some unit_price }])

/-- The item-building loop (lines 180-205), started from
`total = Decimal("0")` and an empty item list. -/
def build_items (lookup : String → Option Product) (oid : Nat)
    (extracted_items : List RawItem) : Int × List OrderItemObj :=
  extracted_items.foldl (build_step lookup oid) (0, [])

/-- Function `OrderOrchestrator.process_incoming_interaction`, linearized over
the provider oracles.  `iid` and `oid` are the uuid4 primary keys the two
`session.flush()` calls materialize for the interaction and the order.  Every
failure point after the first flush goes through `fail_path`. -/
def process_incoming_interaction (stg : Settings) (prov : Providers)
    (catalog : List Product) (tenant_id customer_id : String)
    (source_type : SourceType) (iid oid : Nat) (db0 : DB) : RunOutcome :=
  -- step 1: persist the incoming interaction (status PENDING), flush
  let interaction : InteractionRow :=
    { id := iid, tenant_id := tenant_id, customer_id := customer_id,
      source_type := source_type, status := .PENDING }
  -- step 2: transcribe
  match prov.transcribe with
  | .error e => fail_path e db0 interaction
  | .ok transcript =>
    -- step 2b: content safety check
    match safety_gate stg prov transcript with
    | .error e => fail_path e db0 interaction
    | .ok safety_verdict =>
      -- step 3: extract structured order data
      match prov.extract_order_data transcript with
      | .error e => fail_path e db0 interaction
      | .ok extracted_items =>
        -- step 4: persist AI analysis log
        let analysis_log : AnalysisLogRow :=
          { interaction_id := iid, transcript_text := transcript,
            extracted_items := extracted_items,
            safety_verdict := safety_verdict }
        -- step 5: resolve SKUs -> products and build order items
        let skus := extracted_items.map (fun item => item.sku)
        let lookup := product_map catalog tenant_id skus
        let built := build_items lookup oid extracted_items
        let total := built.1
        let order_item_objects := built.2
        -- step 6: anomaly detection; order created DRAFT, FLAGGED if any
        let anomalies := detect_anomalies oid order_item_objects
        let order : OrderRow :=
          { id := oid, tenant_id := tenant_id, customer_id := customer_id,
            interaction_id := some iid,
            status := if anomalies.isEmpty then .DRAFT else .FLAGGED,
            total_amount := total }
        -- step 7: mark interaction as processed, then commit
        let interactionP : InteractionRow :=
          { interaction with status := .PROCESSED }
        match prov.final_commit with
        | some e => fail_path e db0 interactionP
        | none =>
          { result := .ok { interaction_id := iid, order_id := oid,
                            status := order.status.value,
                            anomalies_detected := anomalies.length }
            committed :=
              { interactions := db0.interactions ++ [interactionP]
                ai_analysis_logs := db0.ai_analysis_logs ++ [analysis_log]
                orders := db0.orders ++ [order]
                order_items := db0.order_items ++ order_item_objects
                anomalies := db0.anomalies ++ anomalies }
            interactionObj := interactionP }

/-- Persisted `models.Anomaly` row as the orders router sees it (primary key
assigned). -/
structure AnomalyRec where
  id : Nat
  order_id : Nat
  rule_code : String
  description : String
  severity_score : Int
  is_resolved : Bool
  deriving DecidableEq, Repr

/-- Committed state the orders router operates on (reviewer actions run on
already-committed rows, each as its own transaction). -/
structure RouterDB where
  orders : List OrderRow
  anomalies : List AnomalyRec
  deriving DecidableEq, Repr

/-- HTTPException raised by the router. -/
inductive HTTPError where
  | notFound (detail : String)
  deriving DecidableEq, Repr

/-- In-place ORM mutation of the single loaded object: rewrite the first list
entry matching the predicate (rows are keyed by unique primary keys, so the
first match is the loaded identity-mapped instance). -/
def updateFirst (p : α → Bool) (f : α → α) : List α → List α
  | [] => []
  | x :: xs => if p x then f x :: xs else x :: updateFirst p f xs

/-- Endpoint `routers/orders.py::resolve_anomaly` (lines 123-165): load the
tenant's order and the anomaly (404 if absent; `scalar_one_or_none` modelled
as first match, primary keys being unique); an already-resolved anomaly is
returned unchanged with no writes; otherwise set its resolved flag, query the
other unresolved anomalies of the order, and if none remain and the order is
FLAGGED set the order's status to DRAFT; commit. -/
def resolve_anomaly (tenant_id : String) (order_id anomaly_id : Nat)
    (db : RouterDB) : Except HTTPError (AnomalyRec × RouterDB) :=
  match db.orders.find?
      (fun o => o.id == order_id && o.tenant_id == tenant_id) with
  | none => .error (.notFound "Order not found")
  | some order =>
    match db.anomalies.find?
        (fun a => a.id == anomaly_id && a.order_id == order_id) with
    | none => .error (.notFound "Anomaly not found")
    | some anomaly =>
      if anomaly.is_resolved then .ok (anomaly, db)
      else
        let anomalies :=
          updateFirst (fun a => a.id == anomaly_id && a.order_id == order_id)
            (fun a => { a with is_resolved := true }) db.anomalies
        let remaining := anomalies.filter
          (fun a => a.order_id == order_id && !a.is_resolved
            && a.id != anomaly_id)
        let orders :=
          if remaining.isEmpty = true ∧ order.status = OrderStatus.FLAGGED then
            updateFirst
              (fun o => o.id == order_id && o.tenant_id == tenant_id)
              (fun o => { o with status := OrderStatus.DRAFT }) db.orders
          else db.orders
        .ok ({ anomaly with is_resolved := true },
             { orders := orders, anomalies := anomalies })

/-- Json values, as produced by Python `json.loads`.  Numbers keep their
source lexeme (Python converts them to `int`/`float` afterwards; none of the
verified properties depend on the numeric value). -/
inductive Json where
  | null
  | bool (b : Bool)
  | num (lexeme : String)
  | str (s : String)
  | arr (elements : List Json)
  | obj (members : List (String × Json))

/-- Whitespace accepted between JSON tokens (RFC 8259, as in Python's
`json`). -/
def jsonWs (c : Char) : Bool :=
  match c with
  | ' ' | '\t' | '\n' | '\r' => true
  | _ => false

/-- Skip inter-token whitespace. -/
def skipWs (l : List Char) : List Char := l.dropWhile jsonWs

/-- Value of one hex digit, if any (codes 48-57 are the decimal digits,
97-102 lowercase a-f, 65-70 uppercase A-F). -/
def hexVal? (c : Char) : Option Nat :=
  let n := c.toNat
  if 48 ≤ n && n ≤ 57 then some (n - 48)
  else if 97 ≤ n && n ≤ 102 then some (n - 87)
  else if 65 ≤ n && n ≤ 70 then some (n - 55)
  else none

/-- Decimal digit test for the JSON number grammar. -/
def isJsonDigit (c : Char) : Bool := 48 ≤ c.toNat && c.toNat ≤ 57

/-- Scan the remainder of a JSON string literal (the opening quote already
consumed), handling the escape sequences Python's `json` accepts and
rejecting raw control characters. -/
def jsonStringRest (fuel : Nat) (acc : List Char) (l : List Char) :
    Except String (String × List Char) :=
  match fuel with
  | 0 => .error "Unterminated string"
  | fuel + 1 =>
    match l with
    | [] => .error "Unterminated string"
    | c :: rest =>
      if c == '"' then .ok (String.mk acc.reverse, rest)
      else if c == '\\' then
        match rest with
        | [] => .error "Unterminated string"
        | e :: rest2 =>
          if e == '"' then jsonStringRest fuel ('"' :: acc) rest2
          else if e == '\\' then jsonStringRest fuel ('\\' :: acc) rest2
          else if e == '/' then jsonStringRest fuel ('/' :: acc) rest2
          else if e == 'b' then jsonStringRest fuel ('\x08' :: acc) rest2
          else if e == 'f' then jsonStringRest fuel ('\x0c' :: acc) rest2
          else if e == 'n' then jsonStringRest fuel ('\n' :: acc) rest2
          else if e == 'r' then jsonStringRest fuel ('\r' :: acc) rest2
          else if e == 't' then jsonStringRest fuel ('\t' :: acc) rest2
          else if e == 'u' then
            match rest2 with
            | h1 :: h2 :: h3 :: h4 :: rest3 =>
              match hexVal? h1, hexVal? h2, hexVal? h3, hexVal? h4 with
              | some a, some b, some c', some d =>
                jsonStringRest fuel
                  (Char.ofNat (((a * 16 + b) * 16 + c') * 16 + d) :: acc) rest3
              | _, _, _, _ => .error "Invalid \\uXXXX escape"
            | _ => .error "Invalid \\uXXXX escape"
          else .error "Invalid \\escape"
      else if c.toNat < 32 then .error "Invalid control character"
      else jsonStringRest fuel (c :: acc) rest

/-- Scan a JSON number token (grammar `-?(0|[1-9][0-9]*)(.[0-9]+)?`
with an optional exponent), returning its lexeme. -/
def jsonNumber (l : List Char) : Except String (String × List Char) :=
  let (neg, l1) :=
    match l with
    | '-' :: rest => (['-'], rest)
    | _ => (([] : List Char), l)
  match l1 with
  | [] => .error "Expecting value"
  | c :: rest =>
    if c == '0' then
      let intPart := ['0']
      jsonNumberFrac (neg ++ intPart) rest
    else if isJsonDigit c then
      let digits := rest.takeWhile isJsonDigit
      jsonNumberFrac (neg ++ (c :: digits)) (rest.dropWhile isJsonDigit)
    else .error "Expecting value"
where
  /-- Optional fraction then optional exponent. -/
  jsonNumberFrac (pre : List Char) (l : List Char) :
      Except String (String × List Char) :=
    let (frac, l2) :=
      match l with
      | '.' :: d :: rest =>
        if isJsonDigit d then
          ('.' :: d :: rest.takeWhile isJsonDigit, rest.dropWhile isJsonDigit)
        else (([] : List Char), l)
      | _ => (([] : List Char), l)
    if frac.isEmpty && l2.length != l.length then .error "Expecting digit"
    else
      let (ex, l3) :=
        match l2 with
        | 'e' :: rest => jsonNumberExp ['e'] rest
        | 'E' :: rest => jsonNumberExp ['E'] rest
        | _ => (([] : List Char), l2)
      match ex with
      | ['!'] => .error "Expecting digit in exponent"
      | _ => .ok (String.mk (pre ++ frac ++ ex), l3)
  /-- Exponent: optional sign then at least one digit; `['!']` signals a
  malformed exponent. -/
  jsonNumberExp (pre : List Char) (l : List Char) : List Char × List Char :=
    let (sign, l1) :=
      match l with
      | '+' :: rest => (['+'], rest)
      | '-' :: rest => (['-'], rest)
      | _ => (([] : List Char), l)
    match l1 with
    | c :: rest =>
      if isJsonDigit c then
        (pre ++ sign ++ (c :: rest.takeWhile isJsonDigit),
         rest.dropWhile isJsonDigit)
      else (['!'], l)
    | [] => (['!'], l)

mutual

/-- Recursive-descent JSON value parser (the recognizer behind Python's
`json.loads`), fuel-indexed for termination. -/
def jsonValue (fuel : Nat) (l : List Char) :
    Except String (Json × List Char) :=
  match fuel with
  | 0 => .error "Recursion limit"
  | fuel + 1 =>
    match skipWs l with
    | [] => .error "Expecting value"
    | c :: rest =>
      if c == 'n' then
        match rest with
        | 'u' :: 'l' :: 'l' :: rest2 => .ok (.null, rest2)
        | _ => .error "Expecting value"
      else if c == 't' then
        match rest with
        | 'r' :: 'u' :: 'e' :: rest2 => .ok (.bool true, rest2)
        | _ => .error "Expecting value"
      else if c == 'f' then
        match rest with
        | 'a' :: 'l' :: 's' :: 'e' :: rest2 => .ok (.bool false, rest2)
        | _ => .error "Expecting value"
      else if c == '"' then
        match jsonStringRest (rest.length + 1) [] rest with
        | .error m => .error m
        | .ok (s, rest2) => .ok (.str s, rest2)
      else if c == '[' then
        match skipWs rest with
        | ']' :: rest2 => .ok (.arr [], rest2)
        | _ => jsonElements fuel [] rest
      else if c == '\x7b' then
        match skipWs rest with
        | '\x7d' :: rest2 => .ok (.obj [], rest2)
        | _ => jsonMembers fuel [] rest
      else if c == '-' || isJsonDigit c then
        match jsonNumber (c :: rest) with
        | .error m => .error m
        | .ok (lex, rest2) => .ok (.num lex, rest2)
      else .error "Expecting value"

/-- Array elements: `value (, value)* ]`. -/
def jsonElements (fuel : Nat) (acc : List Json) (l : List Char) :
    Except String (Json × List Char) :=
  match fuel with
  | 0 => .error "Recursion limit"
  | fuel + 1 =>
    match jsonValue fuel l with
    | .error m => .error m
    | .ok (v, rest) =>
      match skipWs rest with
      | ',' :: rest2 => jsonElements fuel (v :: acc) rest2
      | ']' :: rest2 => .ok (.arr (v :: acc).reverse, rest2)
      | _ => .error "Expecting delimiter"

/-- Object members: `string : value (, string : value)*` then the closing
brace. -/
def jsonMembers (fuel : Nat) (acc : List (String × Json)) (l : List Char) :
    Except String (Json × List Char) :=
  match fuel with
  | 0 => .error "Recursion limit"
  | fuel + 1 =>
    match skipWs l with
    | '"' :: rest =>
      match jsonStringRest (rest.length + 1) [] rest with
      | .error m => .error m
      | .ok (key, rest2) =>
        match skipWs rest2 with
        | ':' :: rest3 =>
          match jsonValue fuel rest3 with
          | .error m => .error m
          | .ok (v, rest4) =>
            match skipWs rest4 with
            | ',' :: rest5 => jsonMembers fuel ((key, v) :: acc) rest5
            | '\x7d' :: rest5 => .ok (.obj ((key, v) :: acc).reverse, rest5)
            | _ => .error "Expecting delimiter"
        | _ => .error "Expecting colon"
    | _ => .error "Expecting property name"

end

/-- Python `json.loads`: parse one JSON value, allow surrounding whitespace,
reject trailing data; failures raise `json.JSONDecodeError`. -/
def json_loads (s : String) : Except PyExc Json :=
  match jsonValue (2 * s.length + 2) s.toList with
  | .error m => .error (.pyError "json.JSONDecodeError" m)
  | .ok (v, rest) =>
    if (skipWs rest).isEmpty then .ok v
    else .error (.pyError "json.JSONDecodeError" "Extra data")

/-- Parsing step of `AIService.extract_order_data` (ai_service.py lines
186-187): the provider's raw text is passed to `json.loads` directly, with no
preprocessing of any kind. -/
def extract_order_data_parse (raw_text : String) : Except PyExc Json :=
  json_loads raw_text

/-- Characters Python's `str.strip()` removes (ASCII whitespace). -/
def pyWs (c : Char) : Bool :=
  match c with
  | ' ' | '\t' | '\n' | '\r' | '\x0b' | '\x0c' => true
  | _ => false

/-- Python `str.strip()`. -/
def py_strip (s : String) : String :=
  String.mk (((s.toList.dropWhile pyWs).reverse.dropWhile pyWs).reverse)

/-- Markdown-fence stripping of `order_processor.OrderProcessor._call_claude`
(order_processor.py lines 226-231): strip, and if the text starts with three
backticks drop the first line (or the three backticks when there is no
newline), drop a trailing three-backtick fence, and strip again.  This is the
only fence-stripping logic in the repository; the pipeline's own
`extract_order_data` does not call it. -/
def call_claude_clean (raw_text : String) : String :=
  let cleaned := (py_strip raw_text).toList
  match cleaned with
  | '`' :: '`' :: '`' :: _ =>
    -- `cleaned.split("\n", 1)[1] if "\n" in cleaned else cleaned[3:]`
    let cleaned2 :=
      if cleaned.contains '\n' then
        (cleaned.dropWhile (fun c => c != '\n')).drop 1
      else cleaned.drop 3
    -- `if cleaned.endswith("```"): cleaned = cleaned[:-3]`
    let cleaned3 :=
      match cleaned2.reverse with
      | '`' :: '`' :: '`' :: restRev => restRev.reverse
      | _ => cleaned2
    py_strip (String.mk cleaned3)
  | _ => String.mk cleaned

/-- Parsing as the spec describes `extractOrderItems`: markdown fencing is
stripped before `json.loads`.  Spec-side definition, for comparison with
`extract_order_data_parse`. -/
def extract_parse_with_fence_stripping (raw_text : String) :
    Except PyExc Json :=
  json_loads (call_claude_clean raw_text)

/-- The method names defined in class `OrderOrchestrator`
(order_orchestrator.py lines 33-260): `__init__`, the startup-warning helper,
and the single pipeline entrypoint. -/
def orderOrchestratorMethods : List String :=
  ["__init__", "_warn_missing_safety_key", "process_incoming_interaction"]

/-- Python attribute lookup `orchestrator.process_text` performed by
`routers/interactions.py` line 29: it resolves only if the class defines the
method, and raises `AttributeError` otherwise. -/
def process_text_attribute_lookup : Except PyExc Unit :=
  if orderOrchestratorMethods.contains "process_text" then .ok ()
  else .error (.pyError "AttributeError"
    "OrderOrchestrator object has no attribute process_text")

/-- Exception-to-HTTP-status mapping of the `process_text` route handler
(interactions.py lines 28-47): `ContentSafetyError` becomes 422, any other
exception becomes 500, success returns 201. -/
def process_text_exc_status : PyExc → Nat
  | .contentSafetyError _ => 422
  | .pyError _ _ => 500

/-- HTTP status the `POST /interactions/process-text` route produces, given
that its first step is the `orchestrator.process_text` attribute lookup. -/
def process_text_route_status : Nat :=
  match process_text_attribute_lookup with
  | .ok _ => 201
  | .error e => process_text_exc_status e

/-- Sum of `quantity * unit_price` over a list of order items (the quantity
times the snapshotted price, missing prices counting as zero). -/
def line_sum (items : List OrderItemObj) : Int :=
  (items.map (fun it => it.quantity * it.unit_price.getD 0)).sum

/-- The order items the building loop keeps: one per extracted line whose SKU
resolves, carrying the resolved product's id and snapshotted price; lines
with unresolved SKUs contribute nothing. -/
def resolved_items (lookup : String → Option Product) (oid : Nat)
    (extracted_items : List RawItem) : List OrderItemObj :=
  extracted_items.filterMap (fun raw =>
    (lookup raw.sku).map (fun p =>
      { order_id := oid, product_id := p.id, quantity := raw.qty,
        unit_price := some p.price }))

/-- The order items a run with the given catalog, tenant and extracted lines
builds (lookup scoped to the extracted SKUs, as in step 5). -/
def pipeline_resolved (catalog : List Product) (tenant_id : String)
    (oid : Nat) (extracted : List RawItem) : List OrderItemObj :=
  resolved_items (product_map catalog tenant_id (extracted.map (fun r => r.sku)))
    oid extracted

/-- Empty database fixture. -/
def dbEmpty : DB :=
  { interactions := [], ai_analysis_logs := [], orders := [],
    order_items := [], anomalies := [] }

/-- Settings fixture: safety disabled. -/
def stgOff : Settings := { SAFETY_MODE := "off", WHITE_CIRCLE_API_KEY := "" }

/-- Settings fixture: strict safety with a configured key. -/
def stgStrict : Settings :=
  { SAFETY_MODE := "strict", WHITE_CIRCLE_API_KEY := "wc-key" }

/-- Catalog fixture for tenant-1: SKU-1 at 10.00, SKU-2 at 5.00. -/
def catalogW : List Product :=
  [{ id := "prod-1", tenant_id := "tenant-1", sku := "SKU-1", price := 1000 },
   { id := "prod-2", tenant_id := "tenant-1", sku := "SKU-2", price := 500 }]

/-- Provider fixture: the spec's happy-path scenario (500 of SKU-1, 20 of
SKU-2), all calls succeed. -/
def provHappy : Providers :=
  { transcribe := .ok "need 500 of SKU-1 and 20 of SKU-2"
    verify_content_safety := fun _ => .ok { decision := some "allow", reason := none }
    extract_order_data := fun _ =>
      .ok [{ sku := "SKU-1", qty := 500 }, { sku := "SKU-2", qty := 20 }]
    final_commit := none }

/-- Provider fixture: extraction returns a SKU absent from the catalog. -/
def provUnknownSku : Providers :=
  { transcribe := .ok "five of SKU-X please"
    verify_content_safety := fun _ => .ok { decision := some "allow", reason := none }
    extract_order_data := fun _ => .ok [{ sku := "SKU-X", qty := 5 }]
    final_commit := none }

/-- Provider fixture: extraction returns quantity 15000 of a resolvable SKU
(the spec's anomaly-trigger scenario). -/
def provFlagged : Providers :=
  { transcribe := .ok "need 15000 of SKU-1"
    verify_content_safety := fun _ => .ok { decision := some "allow", reason := none }
    extract_order_data := fun _ => .ok [{ sku := "SKU-1", qty := 15000 }]
    final_commit := none }

/-- Provider fixture: the safety provider answers `block` with a reason. -/
def provBlocked : Providers :=
  { transcribe := .ok "some transcript"
    verify_content_safety := fun _ =>
      .ok { decision := some "block", reason := some "policy violation" }
    extract_order_data := fun _ => .ok []
    final_commit := none }

/-- Provider fixture: transcription fails (no provider keys configured), as
`AIService.transcribe_audio` then raises `TranscriptionError`. -/
def provTranscribeFail : Providers :=
  { transcribe := .error (.pyError "TranscriptionError"
      "All transcription providers failed for call.wav. No transcription API keys configured")
    verify_content_safety := fun _ => .ok { decision := none, reason := none }
    extract_order_data := fun _ => .ok []
    final_commit := none }

/-- Provider fixture: extraction returns unparseable output, so
`json.loads` inside `extract_order_data` raises `json.JSONDecodeError`. -/
def provExtractFail : Providers :=
  { transcribe := .ok "gibberish transcript"
    verify_content_safety := fun _ => .ok { decision := some "allow", reason := none }
    extract_order_data := fun _ =>
      .error (.pyError "json.JSONDecodeError" "Expecting value")
    final_commit := none }

/-- Order fixture: a FLAGGED order of tenant-1. -/
def orderW : OrderRow :=
  { id := 5, tenant_id := "tenant-1", customer_id := "cust-1",
    interaction_id := some 1, status := .FLAGGED, total_amount := 510000 }

/-- Anomaly fixture: the single unresolved anomaly of `orderW`. -/
def anomalyW : AnomalyRec :=
  { id := 3, order_id := 5, rule_code := "UNUSUAL_VOLUME",
    description := "Quantity 15000 for product prod-1 exceeds threshold of 10000",
    severity_score := 800, is_resolved := false }

/-- Router database fixture: one FLAGGED order with one unresolved anomaly. -/
def routerDbW : RouterDB := { orders := [orderW], anomalies := [anomalyW] }

/-- Order fixture: a CONFIRMED order of tenant-1 (not FLAGGED). -/
def orderConfirmed : OrderRow :=
  { id := 6, tenant_id := "tenant-1", customer_id := "cust-1",
    interaction_id := none, status := .CONFIRMED, total_amount := 2000 }

/-- Anomaly fixture: an unresolved anomaly on the CONFIRMED order. -/
def anomalyOnConfirmed : AnomalyRec :=
  { id := 4, order_id := 6, rule_code := "ZERO_PRICE",
    description := "Unit price is 0.00 for product prod-2",
    severity_score := 650, is_resolved := false }

/-- Router database fixture: a CONFIRMED order with one unresolved anomaly. -/
def routerDbConfirmed : RouterDB :=
  { orders := [orderConfirmed], anomalies := [anomalyOnConfirmed] }

/-! Helper lemmas (shared). -/

/-- A left fold whose step appends a per-element block produces the
concatenation of the blocks. -/
theorem foldl_append_flatMap {α β : Type} (g : List β → α → List β)
    (h : α → List β) (hg : ∀ acc x, g acc x = acc ++ h x) :
    ∀ (l : List α) (acc : List β), l.foldl g acc = acc ++ l.flatMap h := by
  intro l
  induction l with
  | nil => intro acc; simp
  | cons x xs ih =>
    intro acc
    rw [List.foldl_cons, hg, ih, List.flatMap_cons, List.append_assoc]

/-- One iteration of the `detect_anomalies` loop appends exactly the item's
per-item anomaly block. -/
theorem detect_anomalies_step (oid : Nat) (acc : List Anomaly)
    (item : OrderItemObj) :
    (let a1 :=
        if item.quantity > MAX_REASONABLE_QUANTITY then
          acc ++ [uv_anomaly oid item]
        else acc
      let a2 :=
        if price_missing_or_nonpos item then a1 ++ [zp_anomaly oid item]
        else a1
      a2)
      = acc ++ item_anomalies oid item := by
  by_cases h1 : item.quantity > MAX_REASONABLE_QUANTITY <;>
    by_cases h2 : price_missing_or_nonpos item <;>
      simp [item_anomalies, h1, h2]

/-- `detect_anomalies` is the concatenation of the per-item anomaly blocks,
in item order. -/
theorem detect_anomalies_eq_flatMap (oid : Nat) (items : List OrderItemObj) :
    detect_anomalies oid items = items.flatMap (item_anomalies oid) := by
  unfold detect_anomalies
  rw [foldl_append_flatMap _ (item_anomalies oid) _ items []]
  · rfl
  · intro acc x
    exact detect_anomalies_step oid acc x

/-- C8: `detect_anomalies` iterates items in input order and emits, per item,
exactly one UNUSUAL_VOLUME anomaly (severity 8.00, i.e. 800 hundredths,
description containing the quantity and the 10000 threshold) when the
quantity exceeds the threshold, followed by exactly one ZERO_PRICE anomaly
(severity 6.50, description containing the offending price) when the unit
price is absent or ≤ 0 — and nothing else: the result is precisely the
concatenation of these per-item blocks, so it is deterministic and ordered by
the triggering item's position with UNUSUAL_VOLUME before ZERO_PRICE within
an item. -/
theorem detect_anomalies_rules (oid : Nat) (items : List OrderItemObj) :
    detect_anomalies oid items = items.flatMap (item_anomalies oid)
    ∧ ∀ it : OrderItemObj,
        item_anomalies oid it =
          (if it.quantity > MAX_REASONABLE_QUANTITY then [uv_anomaly oid it]
           else [])
          ++ (if price_missing_or_nonpos it then [zp_anomaly oid it] else [])
        ∧ (uv_anomaly oid it).rule_code = "UNUSUAL_VOLUME"
        ∧ (uv_anomaly oid it).severity_score = 800
        ∧ (uv_anomaly oid it).order_id = oid
        ∧ (toString it.quantity).data <:+: (uv_anomaly oid it).description.data
        ∧ (toString MAX_REASONABLE_QUANTITY).data
            <:+: (uv_anomaly oid it).description.data
        ∧ (zp_anomaly oid it).rule_code = "ZERO_PRICE"
        ∧ (zp_anomaly oid it).severity_score = 650
        ∧ (zp_anomaly oid it).order_id = oid
        ∧ (priceRepr it.unit_price).data <:+: (zp_anomaly oid it).description.data := by
  refine ⟨detect_anomalies_eq_flatMap oid items, fun it => ⟨rfl, rfl, rfl, rfl, ?_, ?_, rfl, rfl, rfl, ?_⟩⟩
  · exact ⟨"Quantity ".data,
      (" for product " ++ it.product_id ++ " exceeds threshold of "
        ++ toString MAX_REASONABLE_QUANTITY).data,
      by simp [uv_anomaly, String.data_append, List.append_assoc]⟩
  · exact ⟨("Quantity " ++ toString it.quantity ++ " for product "
        ++ it.product_id ++ " exceeds threshold of ").data, [],
      by simp [uv_anomaly, String.data_append, List.append_assoc]⟩
  · exact ⟨"Unit price is ".data, (" for product " ++ it.product_id).data,
      by simp [zp_anomaly, String.data_append, List.append_assoc]⟩

/-- C4: the text-path ingest is broken — class `OrderOrchestrator` defines no
`process_text` method, so the attribute lookup performed by the
`POST /interactions/process-text` handler raises `AttributeError` for every
request, which the handler's generic exception arm turns into HTTP 500.  The
claimed behaviour (run the pipeline on the supplied transcript and return the
summary) is unreachable. -/
theorem process_text_method_missing :
    orderOrchestratorMethods.contains "process_text" = false
    ∧ process_text_attribute_lookup
        = .error (.pyError "AttributeError"
            "OrderOrchestrator object has no attribute process_text")
    ∧ process_text_route_status = 500 := by
  exact ⟨rfl, rfl, rfl⟩

/-- C6 counterexample: on the markdown-fenced provider response
"```json\n[]\n```", the pipeline's `extract_order_data` fails with
`json.JSONDecodeError` (it passes the raw text to `json.loads` with no fence
stripping, and no `ExtractionError` type exists), while parsing after fence
stripping — what the claim asserts happens — would succeed. -/
theorem extract_fenced_output_rejected :
    extract_order_data_parse "```json\n[]\n```"
      = .error (.pyError "json.JSONDecodeError" "Expecting value")
    ∧ extract_parse_with_fence_stripping "```json\n[]\n```"
      = .ok (Json.arr []) := by
  exact ⟨rfl, rfl⟩

/-- C6 amended: `extract_order_data` parses the provider's response with
`json.loads` directly, without stripping markdown fencing; output that is not
valid JSON fails with the resulting `json.JSONDecodeError`, which the
pipeline propagates to the caller unchanged (its single extraction call is
not retried, and nothing of the failed run is committed). -/
theorem extract_parse_direct_and_error_propagates :
    (∀ raw_text, extract_order_data_parse raw_text = json_loads raw_text)
    ∧ ∀ (stg : Settings) (prov : Providers) (catalog : List Product)
        (tid cid : String) (st : SourceType) (iid oid : Nat) (db0 : DB)
        (transcript : String) (sv : Option SafetyResult) (e : PyExc),
        prov.transcribe = .ok transcript →
        safety_gate stg prov transcript = .ok sv →
        prov.extract_order_data transcript = .error e →
        (process_incoming_interaction stg prov catalog tid cid st iid oid
            db0).result = .error e
        ∧ (process_incoming_interaction stg prov catalog tid cid st iid oid
            db0).committed = db0 := by
  refine ⟨fun _ => rfl, ?_⟩
  intro stg prov catalog tid cid st iid oid db0 transcript sv e htr hsg hex
  simp [process_incoming_interaction, htr, hsg, hex, fail_path]

/-- C6 amended, witness: a concrete run whose extraction call fails with a
JSON decode error; the run's result is that same error and the database is
untouched. -/
theorem extract_error_propagates_witness :
    (process_incoming_interaction stgOff provExtractFail catalogW "tenant-1"
        "cust-1" .VOICE 1 2 dbEmpty).result
      = .error (.pyError "json.JSONDecodeError" "Expecting value")
    ∧ (process_incoming_interaction stgOff provExtractFail catalogW "tenant-1"
        "cust-1" .VOICE 1 2 dbEmpty).committed = dbEmpty :=
  extract_parse_direct_and_error_propagates.2 stgOff provExtractFail catalogW
    "tenant-1" "cust-1" .VOICE 1 2 dbEmpty "gibberish transcript" none
    (.pyError "json.JSONDecodeError" "Expecting value") rfl rfl rfl

/-- C3: evaluation of a failed run.  With no transcription provider
configured, `transcribe_audio` raises `TranscriptionError` after the
interaction row was flushed; the handler's `session.rollback()` expunges that
row's instance from the session, so the subsequent best-effort
`interaction.status = FAILED; session.commit()` mutates only the detached
in-memory object and persists nothing: the committed database afterwards
contains NO interaction row at all (rather than one in status FAILED, as the
claim states), and the original exception is what the caller receives. -/
theorem failed_run_persists_no_interaction_row :
    (process_incoming_interaction stgOff provTranscribeFail catalogW
        "tenant-1" "cust-1" .VOICE 1 2 dbEmpty).result
      = .error (.pyError "TranscriptionError"
          "All transcription providers failed for call.wav. No transcription API keys configured")
    ∧ (process_incoming_interaction stgOff provTranscribeFail catalogW
        "tenant-1" "cust-1" .VOICE 1 2 dbEmpty).committed = dbEmpty
    ∧ (process_incoming_interaction stgOff provTranscribeFail catalogW
        "tenant-1" "cust-1" .VOICE 1 2 dbEmpty).committed.interactions = []
    ∧ (process_incoming_interaction stgOff provTranscribeFail catalogW
        "tenant-1" "cust-1" .VOICE 1 2 dbEmpty).interactionObj.status
      = .FAILED := by
  exact ⟨rfl, rfl, rfl, rfl⟩

/-- C5: evaluation of a strict-mode safety block.  The run aborts with
`ContentSafetyError` carrying the provider's reason and no order-side write
survives (the database is exactly as before the run) — but the committed
database holds no FAILED interaction row either: the rollback expunged the
flushed interaction, so the FAILED mark reached only the detached in-memory
object and the claim's "interaction ends FAILED" does not hold in the
database. -/
theorem strict_block_run_evaluation :
    (process_incoming_interaction stgStrict provBlocked catalogW "tenant-1"
        "cust-1" .VOICE 1 2 dbEmpty).result
      = .error (.contentSafetyError
          "Content blocked by safety policy: policy violation")
    ∧ (process_incoming_interaction stgStrict provBlocked catalogW "tenant-1"
        "cust-1" .VOICE 1 2 dbEmpty).committed.orders = []
    ∧ (process_incoming_interaction stgStrict provBlocked catalogW "tenant-1"
        "cust-1" .VOICE 1 2 dbEmpty).committed = dbEmpty
    ∧ (process_incoming_interaction stgStrict provBlocked catalogW "tenant-1"
        "cust-1" .VOICE 1 2 dbEmpty).committed.interactions = []
    ∧ (process_incoming_interaction stgStrict provBlocked catalogW "tenant-1"
        "cust-1" .VOICE 1 2 dbEmpty).interactionObj.status = .FAILED := by
  exact ⟨rfl, rfl, rfl, rfl, rfl⟩

/-- The item-building fold, started from any accumulator, adds the resolved
lines' totals and appends the resolved items. -/
theorem build_items_go (lookup : String → Option Product) (oid : Nat) :
    ∀ (l : List RawItem) (t0 : Int) (acc0 : List OrderItemObj),
      l.foldl (build_step lookup oid) (t0, acc0)
        = (t0 + line_sum (resolved_items lookup oid l),
           acc0 ++ resolved_items lookup oid l) := by
  intro l
  induction l with
  | nil => intro t0 acc0; simp [resolved_items, line_sum]
  | cons raw rest ih =>
    intro t0 acc0
    cases h : lookup raw.sku with
    | none =>
      rw [List.foldl_cons,
        show build_step lookup oid (t0, acc0) raw = (t0, acc0) from by
          simp [build_step, h],
        ih]
      simp [resolved_items, List.filterMap_cons, h]
    | some p =>
      rw [List.foldl_cons,
        show build_step lookup oid (t0, acc0) raw
            = (t0 + p.price * raw.qty,
               acc0 ++ [{ order_id := oid, product_id := p.id,
                          quantity := raw.qty,
                          unit_price := some p.price }]) from by
          simp [build_step, h],
        ih,
        show resolved_items lookup oid (raw :: rest)
            = { order_id := oid, product_id := p.id, quantity := raw.qty,
                unit_price := some p.price } :: resolved_items lookup oid rest
          from by simp [resolved_items, List.filterMap_cons, h]]
      refine Prod.ext ?_ ?_
      · simp [line_sum]
        ring
      · simp

/-- The item-building loop returns the resolved items and the sum of their
line totals. -/
theorem build_items_spec (lookup : String → Option Product) (oid : Nat)
    (l : List RawItem) :
    build_items lookup oid l
      = (line_sum (resolved_items lookup oid l), resolved_items lookup oid l) := by
  unfold build_items
  rw [build_items_go]
  simp

/-- Every resolved item carries the run's order id and comes from a resolved
catalog product whose price it snapshots. -/
theorem mem_resolved_items (lookup : String → Option Product) (oid : Nat)
    (l : List RawItem) (it : OrderItemObj)
    (hit : it ∈ resolved_items lookup oid l) :
    it.order_id = oid
    ∧ ∃ raw ∈ l, ∃ p, lookup raw.sku = some p
        ∧ it = { order_id := oid, product_id := p.id, quantity := raw.qty,
                 unit_price := some p.price } := by
  obtain ⟨raw, hraw, hmap⟩ := List.mem_filterMap.mp hit
  cases h : lookup raw.sku with
  | none => rw [h] at hmap; simp at hmap
  | some p =>
    rw [h] at hmap
    simp only [Option.map_some'] at hmap
    cases hmap
    exact ⟨rfl, raw, hraw, p, h, rfl⟩

/-- One resolved item per extracted line whose SKU resolves. -/
theorem resolved_items_length (lookup : String → Option Product) (oid : Nat)
    (l : List RawItem) :
    (resolved_items lookup oid l).length
      = l.countP (fun raw => (lookup raw.sku).isSome) := by
  induction l with
  | nil => rfl
  | cons raw rest ih =>
    cases h : lookup raw.sku with
    | none =>
      rw [show resolved_items lookup oid (raw :: rest)
            = resolved_items lookup oid rest from by
          simp [resolved_items, List.filterMap_cons, h],
        ih, List.countP_cons]
      simp [h]
    | some p =>
      rw [show resolved_items lookup oid (raw :: rest)
            = { order_id := oid, product_id := p.id, quantity := raw.qty,
                unit_price := some p.price }
              :: resolved_items lookup oid rest from by
          simp [resolved_items, List.filterMap_cons, h],
        List.length_cons, ih, List.countP_cons]
      simp [h]

/-- A SKU the pipeline's product map resolves belongs to the catalog and to
the run's tenant. -/
theorem product_map_sound (catalog : List Product) (tenant_id : String)
    (skus : List String) (sku : String) (p : Product)
    (h : product_map catalog tenant_id skus sku = some p) :
    p ∈ catalog ∧ p.tenant_id = tenant_id := by
  unfold product_map at h
  have hmem := List.mem_of_find?_eq_some h
  rw [List.mem_reverse] at hmem
  have hf := List.mem_filter.mp hmem
  refine ⟨hf.1, ?_⟩
  have hb := hf.2
  simp only [Bool.and_eq_true, beq_iff_eq] at hb
  exact hb.1

/-- A successful run decomposes into successful oracle answers: the
transcription, the safety gate, the extraction and the final commit all
succeeded. -/
theorem process_ok_cases (stg : Settings) (prov : Providers)
    (catalog : List Product) (tid cid : String) (st : SourceType)
    (iid oid : Nat) (db0 : DB) (summ : Summary)
    (hok : (process_incoming_interaction stg prov catalog tid cid st iid oid
        db0).result = .ok summ) :
    ∃ transcript sv extracted,
      prov.transcribe = .ok transcript
      ∧ safety_gate stg prov transcript = .ok sv
      ∧ prov.extract_order_data transcript = .ok extracted
      ∧ prov.final_commit = none := by
  cases htr : prov.transcribe with
  | error e => simp [process_incoming_interaction, htr, fail_path] at hok
  | ok transcript =>
    cases hsg : safety_gate stg prov transcript with
    | error e =>
      simp [process_incoming_interaction, htr, hsg, fail_path] at hok
    | ok sv =>
      cases hex : prov.extract_order_data transcript with
      | error e =>
        simp [process_incoming_interaction, htr, hsg, hex, fail_path] at hok
      | ok extracted =>
        cases hfc : prov.final_commit with
        | some e =>
          simp [process_incoming_interaction, htr, hsg, hex, hfc, fail_path]
            at hok
        | none => exact ⟨transcript, sv, extracted, rfl, hsg, hex, rfl⟩

/-- Explicit form of the outcome of a successful run. -/
theorem process_success_eq (stg : Settings) (prov : Providers)
    (catalog : List Product) (tid cid : String) (st : SourceType)
    (iid oid : Nat) (db0 : DB) (transcript : String)
    (sv : Option SafetyResult) (extracted : List RawItem)
    (htr : prov.transcribe = .ok transcript)
    (hsg : safety_gate stg prov transcript = .ok sv)
    (hex : prov.extract_order_data transcript = .ok extracted)
    (hfc : prov.final_commit = none) :
    process_incoming_interaction stg prov catalog tid cid st iid oid db0
      = { result := .ok
            { interaction_id := iid, order_id := oid,
              status :=
                (if (detect_anomalies oid
                      (pipeline_resolved catalog tid oid extracted)).isEmpty
                  then OrderStatus.DRAFT else OrderStatus.FLAGGED).value,
              anomalies_detected :=
                (detect_anomalies oid
                  (pipeline_resolved catalog tid oid extracted)).length }
          committed :=
            { interactions := db0.interactions
                ++ [{ id := iid, tenant_id := tid, customer_id := cid,
                      source_type := st, status := .PROCESSED }]
              ai_analysis_logs := db0.ai_analysis_logs
                ++ [{ interaction_id := iid, transcript_text := transcript,
                      extracted_items := extracted, safety_verdict := sv }]
              orders := db0.orders
                ++ [{ id := oid, tenant_id := tid, customer_id := cid,
                      interaction_id := some iid,
                      status :=
                        if (detect_anomalies oid
                              (pipeline_resolved catalog tid oid
                                extracted)).isEmpty
                        then OrderStatus.DRAFT else OrderStatus.FLAGGED,
                      total_amount :=
                        line_sum (pipeline_resolved catalog tid oid
                          extracted) }]
              order_items := db0.order_items
                ++ pipeline_resolved catalog tid oid extracted
              anomalies := db0.anomalies
                ++ detect_anomalies oid
                    (pipeline_resolved catalog tid oid extracted) }
          interactionObj :=
            { id := iid, tenant_id := tid, customer_id := cid,
              source_type := st, status := .PROCESSED } } := by
  simp only [process_incoming_interaction, htr, hsg, hex, hfc,
    build_items_spec, pipeline_resolved]

/-- C1: for every pipeline run that completes successfully, the created
order's `total_amount` equals the sum over its persisted order items of
`quantity * unit_price`, and every persisted item's `unit_price` is the
catalog price of the tenant's product it resolved to, snapshotted at
resolution time. -/
theorem order_total_equals_item_sum
    (stg : Settings) (prov : Providers) (catalog : List Product)
    (tid cid : String) (st : SourceType) (iid oid : Nat) (db0 : DB)
    (horders : ∀ o ∈ db0.orders, o.id ≠ oid)
    (hitems : ∀ it ∈ db0.order_items, it.order_id ≠ oid)
    (summ : Summary)
    (hok : (process_incoming_interaction stg prov catalog tid cid st iid oid
        db0).result = .ok summ) :
    ∃ ord : OrderRow,
      (process_incoming_interaction stg prov catalog tid cid st iid oid
          db0).committed.orders.filter (fun o => o.id == oid) = [ord]
      ∧ ord.total_amount
          = line_sum ((process_incoming_interaction stg prov catalog tid cid
              st iid oid db0).committed.order_items.filter
              (fun it => it.order_id == oid))
      ∧ ∀ it ∈ (process_incoming_interaction stg prov catalog tid cid st iid
            oid db0).committed.order_items.filter
            (fun it => it.order_id == oid),
          ∃ p, p ∈ catalog ∧ p.tenant_id = tid ∧ it.product_id = p.id
            ∧ it.unit_price = some p.price := by
  obtain ⟨transcript, sv, extracted, htr, hsg, hex, hfc⟩ :=
    process_ok_cases _ _ _ _ _ _ _ _ _ _ hok
  rw [process_success_eq stg prov catalog tid cid st iid oid db0 transcript
    sv extracted htr hsg hex hfc]
  have hfo : db0.orders.filter (fun o => o.id == oid) = [] := by
    rw [List.filter_eq_nil_iff]
    intro o ho
    simpa using horders o ho
  have hfi : db0.order_items.filter (fun it => it.order_id == oid) = [] := by
    rw [List.filter_eq_nil_iff]
    intro it hit
    simpa using hitems it hit
  have hsame : (pipeline_resolved catalog tid oid extracted).filter
      (fun it => it.order_id == oid)
      = pipeline_resolved catalog tid oid extracted := by
    rw [List.filter_eq_self]
    intro it hit
    have h1 := (mem_resolved_items _ _ _ _ hit).1
    simp [h1]
  refine ⟨{ id := oid, tenant_id := tid, customer_id := cid,
            interaction_id := some iid,
            status := if (detect_anomalies oid
                (pipeline_resolved catalog tid oid extracted)).isEmpty
              then OrderStatus.DRAFT else OrderStatus.FLAGGED,
            total_amount := line_sum (pipeline_resolved catalog tid oid
              extracted) }, ?_, ?_, ?_⟩
  · rw [List.filter_append, hfo, List.nil_append]
    simp
  · rw [List.filter_append, hfi, hsame, List.nil_append]
  · intro it hit
    rw [List.filter_append, hfi, hsame, List.nil_append] at hit
    obtain ⟨-, raw, hraw, p, hp, hit_eq⟩ := mem_resolved_items _ _ _ _ hit
    obtain ⟨hmem, htid⟩ := product_map_sound _ _ _ _ _ hp
    exact ⟨p, hmem, htid, by rw [hit_eq], by rw [hit_eq]⟩

/-- C1 witness: the happy-path scenario (500 of SKU-1 at 10.00, 20 of SKU-2
at 5.00) applied to `order_total_equals_item_sum`; the created order's total
is the item sum 510000 cents. -/
theorem order_total_equals_item_sum_witness :
    ∃ ord : OrderRow,
      (process_incoming_interaction stgOff provHappy catalogW "tenant-1"
          "cust-1" .EMAIL 1 2 dbEmpty).committed.orders.filter
          (fun o => o.id == 2) = [ord]
      ∧ ord.total_amount
          = line_sum ((process_incoming_interaction stgOff provHappy catalogW
              "tenant-1" "cust-1" .EMAIL 1 2
              dbEmpty).committed.order_items.filter
              (fun it => it.order_id == 2))
      ∧ ∀ it ∈ (process_incoming_interaction stgOff provHappy catalogW
            "tenant-1" "cust-1" .EMAIL 1 2
            dbEmpty).committed.order_items.filter
            (fun it => it.order_id == 2),
          ∃ p, p ∈ catalogW ∧ p.tenant_id = "tenant-1"
            ∧ it.product_id = p.id ∧ it.unit_price = some p.price :=
  order_total_equals_item_sum stgOff provHappy catalogW "tenant-1" "cust-1"
    .EMAIL 1 2 dbEmpty (by simp [dbEmpty]) (by simp [dbEmpty])
    { interaction_id := 1, order_id := 2, status := "DRAFT",
      anomalies_detected := 0 } rfl

/-- C2: for every pipeline run that completes successfully, the created
order's status is FLAGGED iff the anomaly detector returned a non-empty list
over the run's persisted order items, DRAFT otherwise, and never CONFIRMED
or SYNCED. -/
theorem order_flagged_iff_detector_fired
    (stg : Settings) (prov : Providers) (catalog : List Product)
    (tid cid : String) (st : SourceType) (iid oid : Nat) (db0 : DB)
    (horders : ∀ o ∈ db0.orders, o.id ≠ oid)
    (hitems : ∀ it ∈ db0.order_items, it.order_id ≠ oid)
    (summ : Summary)
    (hok : (process_incoming_interaction stg prov catalog tid cid st iid oid
        db0).result = .ok summ) :
    ∃ ord : OrderRow,
      (process_incoming_interaction stg prov catalog tid cid st iid oid
          db0).committed.orders.filter (fun o => o.id == oid) = [ord]
      ∧ (ord.status = .FLAGGED
          ↔ detect_anomalies oid
              ((process_incoming_interaction stg prov catalog tid cid st iid
                oid db0).committed.order_items.filter
                (fun it => it.order_id == oid)) ≠ [])
      ∧ (ord.status = .DRAFT
          ↔ detect_anomalies oid
              ((process_incoming_interaction stg prov catalog tid cid st iid
                oid db0).committed.order_items.filter
                (fun it => it.order_id == oid)) = [])
      ∧ ord.status ≠ .CONFIRMED ∧ ord.status ≠ .SYNCED := by
  obtain ⟨transcript, sv, extracted, htr, hsg, hex, hfc⟩ :=
    process_ok_cases _ _ _ _ _ _ _ _ _ _ hok
  rw [process_success_eq stg prov catalog tid cid st iid oid db0 transcript
    sv extracted htr hsg hex hfc]
  have hfo : db0.orders.filter (fun o => o.id == oid) = [] := by
    rw [List.filter_eq_nil_iff]
    intro o ho
    simpa using horders o ho
  have hfi : db0.order_items.filter (fun it => it.order_id == oid) = [] := by
    rw [List.filter_eq_nil_iff]
    intro it hit
    simpa using hitems it hit
  have hsame : (pipeline_resolved catalog tid oid extracted).filter
      (fun it => it.order_id == oid)
      = pipeline_resolved catalog tid oid extracted := by
    rw [List.filter_eq_self]
    intro it hit
    have h1 := (mem_resolved_items _ _ _ _ hit).1
    simp [h1]
  refine ⟨{ id := oid, tenant_id := tid, customer_id := cid,
            interaction_id := some iid,
            status := if (detect_anomalies oid
                (pipeline_resolved catalog tid oid extracted)).isEmpty
              then OrderStatus.DRAFT else OrderStatus.FLAGGED,
            total_amount := line_sum (pipeline_resolved catalog tid oid
              extracted) }, ?_, ?_, ?_, ?_, ?_⟩
  · rw [List.filter_append, hfo, List.nil_append]
    simp
  · rw [List.filter_append, hfi, hsame, List.nil_append]
    by_cases hA : (detect_anomalies oid (pipeline_resolved catalog tid oid
        extracted)).isEmpty <;>
      simp_all [List.isEmpty_iff]
  · rw [List.filter_append, hfi, hsame, List.nil_append]
    by_cases hA : (detect_anomalies oid (pipeline_resolved catalog tid oid
        extracted)).isEmpty <;>
      simp_all [List.isEmpty_iff]
  · by_cases hA : (detect_anomalies oid (pipeline_resolved catalog tid oid
        extracted)).isEmpty <;>
      simp [hA]
  · by_cases hA : (detect_anomalies oid (pipeline_resolved catalog tid oid
        extracted)).isEmpty <;>
      simp [hA]

/-- C2 witness: quantity 15000 of SKU-1 triggers UNUSUAL_VOLUME, so the
created order is FLAGGED (and the detector's list over its items is indeed
non-empty). -/
theorem order_flagged_iff_detector_fired_witness :
    ∃ ord : OrderRow,
      (process_incoming_interaction stgOff provFlagged catalogW "tenant-1"
          "cust-1" .VOICE 1 2 dbEmpty).committed.orders.filter
          (fun o => o.id == 2) = [ord]
      ∧ (ord.status = .FLAGGED
          ↔ detect_anomalies 2
              ((process_incoming_interaction stgOff provFlagged catalogW
                "tenant-1" "cust-1" .VOICE 1 2
                dbEmpty).committed.order_items.filter
                (fun it => it.order_id == 2)) ≠ [])
      ∧ (ord.status = .DRAFT
          ↔ detect_anomalies 2
              ((process_incoming_interaction stgOff provFlagged catalogW
                "tenant-1" "cust-1" .VOICE 1 2
                dbEmpty).committed.order_items.filter
                (fun it => it.order_id == 2)) = [])
      ∧ ord.status ≠ .CONFIRMED ∧ ord.status ≠ .SYNCED :=
  order_flagged_iff_detector_fired stgOff provFlagged catalogW "tenant-1"
    "cust-1" .VOICE 1 2 dbEmpty (by simp [dbEmpty]) (by simp [dbEmpty])
    { interaction_id := 1, order_id := 2, status := "FLAGGED",
      anomalies_detected := 1 } rfl

/-- C7: a run whose oracle calls succeed completes successfully no matter how
many extracted SKUs fail to resolve; the order row is still created, exactly
one item is persisted per extracted line whose SKU resolves (unresolved lines
contribute no row), and every persisted item references a real catalog
product with its snapshotted price — never a null product. -/
theorem unresolved_sku_lines_dropped
    (stg : Settings) (prov : Providers) (catalog : List Product)
    (tid cid : String) (st : SourceType) (iid oid : Nat) (db0 : DB)
    (horders : ∀ o ∈ db0.orders, o.id ≠ oid)
    (hitems : ∀ it ∈ db0.order_items, it.order_id ≠ oid)
    (transcript : String) (htr : prov.transcribe = .ok transcript)
    (sv : Option SafetyResult)
    (hsg : safety_gate stg prov transcript = .ok sv)
    (extracted : List RawItem)
    (hex : prov.extract_order_data transcript = .ok extracted)
    (hfc : prov.final_commit = none) :
    (∃ summ, (process_incoming_interaction stg prov catalog tid cid st iid
        oid db0).result = .ok summ)
    ∧ (∃ ord : OrderRow,
        (process_incoming_interaction stg prov catalog tid cid st iid oid
            db0).committed.orders.filter (fun o => o.id == oid) = [ord])
    ∧ ((process_incoming_interaction stg prov catalog tid cid st iid oid
          db0).committed.order_items.filter
          (fun it => it.order_id == oid)).length
        = extracted.countP (fun raw =>
            (product_map catalog tid (extracted.map (fun r => r.sku))
              raw.sku).isSome)
    ∧ ∀ it ∈ (process_incoming_interaction stg prov catalog tid cid st iid
          oid db0).committed.order_items.filter
          (fun it => it.order_id == oid),
        ∃ p, p ∈ catalog ∧ it.product_id = p.id
          ∧ it.unit_price = some p.price := by
  rw [process_success_eq stg prov catalog tid cid st iid oid db0 transcript
    sv extracted htr hsg hex hfc]
  have hfo : db0.orders.filter (fun o => o.id == oid) = [] := by
    rw [List.filter_eq_nil_iff]
    intro o ho
    simpa using horders o ho
  have hfi : db0.order_items.filter (fun it => it.order_id == oid) = [] := by
    rw [List.filter_eq_nil_iff]
    intro it hit
    simpa using hitems it hit
  have hsame : (pipeline_resolved catalog tid oid extracted).filter
      (fun it => it.order_id == oid)
      = pipeline_resolved catalog tid oid extracted := by
    rw [List.filter_eq_self]
    intro it hit
    have h1 := (mem_resolved_items _ _ _ _ hit).1
    simp [h1]
  refine ⟨⟨_, rfl⟩,
    ⟨{ id := oid, tenant_id := tid, customer_id := cid,
       interaction_id := some iid,
       status := if (detect_anomalies oid
           (pipeline_resolved catalog tid oid extracted)).isEmpty
         then OrderStatus.DRAFT else OrderStatus.FLAGGED,
       total_amount := line_sum (pipeline_resolved catalog tid oid
         extracted) }, ?_⟩, ?_, ?_⟩
  · rw [List.filter_append, hfo, List.nil_append]
    simp
  · rw [List.filter_append, hfi, hsame, List.nil_append]
    exact resolved_items_length _ _ _
  · intro it hit
    rw [List.filter_append, hfi, hsame, List.nil_append] at hit
    obtain ⟨-, raw, hraw, p, hp, hit_eq⟩ := mem_resolved_items _ _ _ _ hit
    obtain ⟨hmem, -⟩ := product_map_sound _ _ _ _ _ hp
    exact ⟨p, hmem, by rw [hit_eq], by rw [hit_eq]⟩

/-- C7 witness: the spec's unresolvable-SKU scenario — extraction returns
only `SKU-X`, absent from the catalog; the run still completes, the order is
created, and zero items are persisted. -/
theorem unresolved_sku_lines_dropped_witness :
    (∃ summ, (process_incoming_interaction stgOff provUnknownSku catalogW
        "tenant-1" "cust-1" .EMAIL 1 2 dbEmpty).result = .ok summ)
    ∧ (∃ ord : OrderRow,
        (process_incoming_interaction stgOff provUnknownSku catalogW
            "tenant-1" "cust-1" .EMAIL 1 2
            dbEmpty).committed.orders.filter (fun o => o.id == 2) = [ord])
    ∧ ((process_incoming_interaction stgOff provUnknownSku catalogW
          "tenant-1" "cust-1" .EMAIL 1 2
          dbEmpty).committed.order_items.filter
          (fun it => it.order_id == 2)).length
        = [({ sku := "SKU-X", qty := 5 } : RawItem)].countP (fun raw =>
            (product_map catalogW "tenant-1"
              ([({ sku := "SKU-X", qty := 5 } : RawItem)].map
                (fun r => r.sku)) raw.sku).isSome)
    ∧ ∀ it ∈ (process_incoming_interaction stgOff provUnknownSku catalogW
          "tenant-1" "cust-1" .EMAIL 1 2
          dbEmpty).committed.order_items.filter
          (fun it => it.order_id == 2),
        ∃ p, p ∈ catalogW ∧ it.product_id = p.id
          ∧ it.unit_price = some p.price :=
  unresolved_sku_lines_dropped stgOff provUnknownSku catalogW "tenant-1"
    "cust-1" .EMAIL 1 2 dbEmpty (by simp [dbEmpty]) (by simp [dbEmpty])
    "five of SKU-X please" rfl none rfl
    [{ sku := "SKU-X", qty := 5 }] rfl rfl

/-- Rewriting the first matching entry preserves it as the first match of the
same predicate, when the rewrite keeps the predicate true. -/
theorem updateFirst_find?_same {α : Type} (p : α → Bool) (f : α → α)
    (l : List α) (x : α) (h : l.find? p = some x) (hpf : p (f x) = true) :
    (updateFirst p f l).find? p = some (f x) := by
  induction l with
  | nil => simp at h
  | cons y ys ih =>
    unfold updateFirst
    by_cases hy : p y
    · rw [List.find?_cons_of_pos _ hy] at h
      cases h
      rw [if_pos hy, List.find?_cons_of_pos _ hpf]
    · rw [List.find?_cons_of_neg _ (by simp [hy])] at h
      rw [if_neg hy, List.find?_cons_of_neg _ (by simp [hy])]
      exact ih h

/-- Every entry of the rewritten list is an untouched original entry or the
image of a matching original entry. -/
theorem mem_updateFirst {α : Type} (p : α → Bool) (f : α → α) (l : List α)
    (y : α) (hy : y ∈ updateFirst p f l) :
    y ∈ l ∨ ∃ x ∈ l, p x = true ∧ y = f x := by
  induction l with
  | nil => simp [updateFirst] at hy
  | cons z zs ih =>
    unfold updateFirst at hy
    by_cases hz : p z
    · rw [if_pos hz] at hy
      rcases List.mem_cons.mp hy with h | h
      · exact Or.inr ⟨z, List.mem_cons_self z zs, hz, h⟩
      · exact Or.inl (List.mem_cons_of_mem _ h)
    · rw [if_neg hz] at hy
      rcases List.mem_cons.mp hy with h | h
      · exact Or.inl (h ▸ List.mem_cons_self z zs)
      · rcases ih h with h1 | ⟨x, hx, hpx, hyx⟩
        · exact Or.inl (List.mem_cons_of_mem _ h1)
        · exact Or.inr ⟨x, List.mem_cons_of_mem _ hx, hpx, hyx⟩

/-- An entry the predicate rejects survives the rewrite unchanged. -/
theorem mem_updateFirst_of_not_matching {α : Type} (p : α → Bool) (f : α → α)
    (l : List α) (x : α) (hx : x ∈ l) (hpx : p x = false) :
    x ∈ updateFirst p f l := by
  induction l with
  | nil => simp at hx
  | cons z zs ih =>
    unfold updateFirst
    by_cases hz : p z
    · rw [if_pos hz]
      rcases List.mem_cons.mp hx with h | h
      · rw [h] at hpx
        rw [hz] at hpx
        cases hpx
      · exact List.mem_cons_of_mem _ h
    · rw [if_neg hz]
      rcases List.mem_cons.mp hx with h | h
      · cases h
        exact List.mem_cons_self _ _
      · exact List.mem_cons_of_mem _ (ih h)

/-- C9: the anomaly-resolution action on a FLAGGED order.  Resolving the last
unresolved anomaly sets the order's status to DRAFT (never CONFIRMED);
resolving an anomaly while another unresolved anomaly of the order remains
leaves the order rows unchanged; resolving an already-resolved anomaly is a
no-op that returns the unchanged anomaly and leaves the whole database
untouched. -/
theorem resolve_anomaly_state_machine (tid : String) (oid aid : Nat)
    (db : RouterDB) (order : OrderRow) (anomaly : AnomalyRec)
    (hO : db.orders.find? (fun o => o.id == oid && o.tenant_id == tid)
      = some order)
    (hA : db.anomalies.find? (fun a => a.id == aid && a.order_id == oid)
      = some anomaly)
    (hflag : order.status = .FLAGGED) :
    (anomaly.is_resolved = false →
      (∀ a ∈ db.anomalies, a.order_id = oid → a.id ≠ aid →
        a.is_resolved = true) →
      ∃ db', resolve_anomaly tid oid aid db
          = .ok ({ anomaly with is_resolved := true }, db')
        ∧ db'.orders.find? (fun o => o.id == oid && o.tenant_id == tid)
            = some { order with status := OrderStatus.DRAFT })
    ∧ (anomaly.is_resolved = false →
      ∀ other ∈ db.anomalies, other.order_id = oid → other.id ≠ aid →
        other.is_resolved = false →
      ∃ db', resolve_anomaly tid oid aid db
          = .ok ({ anomaly with is_resolved := true }, db')
        ∧ db'.orders = db.orders)
    ∧ (anomaly.is_resolved = true →
      resolve_anomaly tid oid aid db = .ok (anomaly, db)) := by
  refine ⟨?_, ?_, ?_⟩
  · intro hres hlast
    have hrem : (updateFirst (fun a => a.id == aid && a.order_id == oid)
        (fun a => { a with is_resolved := true }) db.anomalies).filter
        (fun a => a.order_id == oid && !a.is_resolved && a.id != aid)
        = [] := by
      rw [List.filter_eq_nil_iff]
      intro a ha
      rcases mem_updateFirst _ _ _ _ ha with h | ⟨x, hx, hpx, hax⟩
      · intro hcl
        simp only [Bool.and_eq_true, Bool.not_eq_true', bne_iff_ne,
          beq_iff_eq] at hcl
        exact absurd (hlast a h hcl.1.1 hcl.2) (by simp [hcl.1.2])
      · subst hax
        simp
    refine ⟨{ orders := updateFirst
                (fun o => o.id == oid && o.tenant_id == tid)
                (fun o => { o with status := OrderStatus.DRAFT }) db.orders,
              anomalies := updateFirst
                (fun a => a.id == aid && a.order_id == oid)
                (fun a => { a with is_resolved := true })
                db.anomalies }, ?_, ?_⟩
    · simp only [resolve_anomaly, hO, hA, hres]
      rw [if_neg (show ¬(false = true) by simp), hrem,
        if_pos ⟨rfl, hflag⟩]
    · exact updateFirst_find?_same
        (fun o => o.id == oid && o.tenant_id == tid)
        (fun o => { o with status := OrderStatus.DRAFT }) db.orders order hO
        (by simpa using List.find?_some hO)
  · intro hres other hmem hooid hne hounres
    have hpother : (fun a => a.id == aid && a.order_id == oid) other
        = false := by
      simp [hne]
    have hmem2 : other ∈ (updateFirst
        (fun a => a.id == aid && a.order_id == oid)
        (fun a => { a with is_resolved := true }) db.anomalies).filter
        (fun a => a.order_id == oid && !a.is_resolved && a.id != aid) :=
      List.mem_filter.mpr
        ⟨mem_updateFirst_of_not_matching _ _ _ _ hmem hpother,
         by simp [hooid, hounres, hne]⟩
    have hcond : ¬(((updateFirst (fun a => a.id == aid && a.order_id == oid)
        (fun a => { a with is_resolved := true }) db.anomalies).filter
        (fun a => a.order_id == oid && !a.is_resolved
          && a.id != aid)).isEmpty = true
        ∧ order.status = OrderStatus.FLAGGED) := by
      rintro ⟨h1, -⟩
      rw [List.isEmpty_iff] at h1
      rw [h1] at hmem2
      exact List.not_mem_nil other hmem2
    refine ⟨{ orders := db.orders,
              anomalies := updateFirst
                (fun a => a.id == aid && a.order_id == oid)
                (fun a => { a with is_resolved := true })
                db.anomalies }, ?_, rfl⟩
    simp only [resolve_anomaly, hO, hA, hres]
    rw [if_neg (show ¬(false = true) by simp), if_neg hcond]
  · intro hres
    simp only [resolve_anomaly, hO, hA, hres, if_true]

/-- C9 witness: one FLAGGED order with a single unresolved anomaly; resolving
it succeeds (and, per the theorem, flips the order to DRAFT). -/
theorem resolve_anomaly_state_machine_witness :
    (resolve_anomaly "tenant-1" 5 3 routerDbW).isOk = true := by
  obtain ⟨db', heq, -⟩ :=
    (resolve_anomaly_state_machine "tenant-1" 5 3 routerDbW orderW anomalyW
      rfl rfl rfl).1 rfl (by decide)
  rw [heq]
  rfl

/-- C10: the anomaly-resolution action mutates the owning order only when it
is FLAGGED — on a DRAFT, CONFIRMED or SYNCED order, resolving any of its
anomalies (the last unresolved one included, since no constraint on the other
anomalies is assumed) marks the anomaly resolved but leaves every order row,
every field included, exactly unchanged. -/
theorem resolve_anomaly_nonflagged_frame (tid : String) (oid aid : Nat)
    (db : RouterDB) (order : OrderRow) (anomaly : AnomalyRec)
    (hO : db.orders.find? (fun o => o.id == oid && o.tenant_id == tid)
      = some order)
    (hA : db.anomalies.find? (fun a => a.id == aid && a.order_id == oid)
      = some anomaly)
    (hst : order.status = .DRAFT ∨ order.status = .CONFIRMED
      ∨ order.status = .SYNCED)
    (hres : anomaly.is_resolved = false) :
    ∃ db', resolve_anomaly tid oid aid db
        = .ok ({ anomaly with is_resolved := true }, db')
      ∧ db'.orders = db.orders
      ∧ db'.anomalies = updateFirst
          (fun a => a.id == aid && a.order_id == oid)
          (fun a => { a with is_resolved := true }) db.anomalies := by
  have hnotflag : order.status ≠ OrderStatus.FLAGGED := by
    rcases hst with h | h | h <;> rw [h] <;> simp
  have hcond : ¬(((updateFirst (fun a => a.id == aid && a.order_id == oid)
      (fun a => { a with is_resolved := true }) db.anomalies).filter
      (fun a => a.order_id == oid && !a.is_resolved
        && a.id != aid)).isEmpty = true
      ∧ order.status = OrderStatus.FLAGGED) := by
    rintro ⟨-, h2⟩
    exact hnotflag h2
  refine ⟨{ orders := db.orders,
            anomalies := updateFirst
              (fun a => a.id == aid && a.order_id == oid)
              (fun a => { a with is_resolved := true })
              db.anomalies }, ?_, rfl, rfl⟩
  simp only [resolve_anomaly, hO, hA, hres]
  rw [if_neg (show ¬(false = true) by simp), if_neg hcond]

/-- C10 witness: resolving the only (hence last) unresolved anomaly of a
CONFIRMED order succeeds without touching the order rows. -/
theorem resolve_anomaly_nonflagged_frame_witness :
    (resolve_anomaly "tenant-1" 6 4 routerDbConfirmed).isOk = true := by
  obtain ⟨db', heq, -, -⟩ :=
    resolve_anomaly_nonflagged_frame "tenant-1" 6 4 routerDbConfirmed
      orderConfirmed anomalyOnConfirmed rfl rfl (Or.inr (Or.inl rfl)) rfl
  rw [heq]
  rfl

end OrderFlow
